import Mathlib

/-!
Shallow embedding of the ipsets package: the set taxonomy, the Set Entity
record, the reference and lifecycle engine, and the translation output
adapter, together with theorems settling the specification claims.

Modelling conventions:
- Go maps used as sets appear as lists of keys; Go maps with values
  appear as association lists. Reads of a nil Go map behave exactly like
  reads of an empty map, so a nil map and an empty map are both the
  empty list.
- Go int counters are Int (arithmetic on them never nears the word size).
- Go pointer identity for member entities is the entity hashed name:
  entities are keyed process wide by hashed name, so two live pointers
  are equal exactly when the hashed names agree. A nil pointer is none.
- Every state mutating or logging operation returns, next to its result,
  the list of error log or metric messages the source emits on that
  path, so that the presence or absence of a diagnostic is observable.
-/

/-- SetType is a Go int8 valued enumeration; values outside the declared
constants are representable and hit the default switch branches. -/
abbrev SetType := Int

/-- UnknownType is the unknown SetType. -/
def UnknownType : SetType := 0

/-- Namespace holds ips of pods in a given namespace. -/
def Namespace : SetType := 1

/-- KeyLabelOfNamespace is a list kind ipset keyed by a namespace label key. -/
def KeyLabelOfNamespace : SetType := 2

/-- KeyValueLabelOfNamespace is a list kind ipset keyed by a namespace label. -/
def KeyValueLabelOfNamespace : SetType := 3

/-- KeyLabelOfPod contains IPs of pods with a label key. -/
def KeyLabelOfPod : SetType := 4

/-- KeyValueLabelOfPod contains IPs of pods with a label. -/
def KeyValueLabelOfPod : SetType := 5

/-- NamedPorts contains a given namedport. -/
def NamedPorts : SetType := 6

/-- NestedLabelOfPod is derived for multivalue matchexpressions. -/
def NestedLabelOfPod : SetType := 7

/-- CIDRBlocks holds CIDR blocks. -/
def CIDRBlocks : SetType := 8

/-- EmptyHashSet is a set meant to have no members. -/
def EmptyHashSet : SetType := 9

/-- Unknown is the sentinel string for unknown names. -/
def Unknown : String := "unknown"

/-- SetKind is a Go string valued type with three declared constants. -/
abbrev SetKind := String

/-- ListSet is of kind list with members as other IPSets. -/
def ListSet : SetKind := "list"

/-- HashSet is of kind hashset with members as IPs and/or port. -/
def HashSet : SetKind := "set"

/-- UnknownKind is returned when kind is unknown. -/
def UnknownKind : SetKind := "unknown"

/-- ReferenceType specifies the kind of reference for an IPSet (a Go
string valued type). -/
abbrev ReferenceType := String

/-- SelectorType marks references through a pod or namespace selector. -/
def SelectorType : ReferenceType := "Selector"

/-- NetPolType marks references from inside network policy rules. -/
def NetPolType : ReferenceType := "NetPol"

/-- ErrIPSetInvalidKind is returned when IPSet kind is invalid. -/
def ErrIPSetInvalidKind : String := "invalid IPSet Kind"

/-- IPSetMetadata is the skeleton metadata a controller sends to the
dataplane. The Go field Type is rendered as the field type, since Type
is reserved in Lean. -/
structure IPSetMetadata where
  Name : String
  type : SetType
deriving DecidableEq

/-- NewIPSetMetadata builds the metadata record from a name and type. -/
def NewIPSetMetadata (name : String) (setType : SetType) : IPSetMetadata :=
  { Name := name, type := setType }

/-- Modelled from the spec: the util package hash underlying
util.GetHashedName is not part of this excerpt. The spec requires a
fixed deterministic hash of the prefixed name, stable across restarts;
we model it as 32 bit FNV-1a over the character codes of the name
(which coincide with the UTF-8 bytes for the ASCII names in play). -/
def fnv1a32 (s : String) : Nat :=
  s.data.foldl (fun h c => ((h ^^^ c.toNat) % 4294967296 * 16777619) % 4294967296) 2166136261

/-- Modelled from the spec: util.GetHashedName prepends the fixed
azure-npm- prefix to the hash of the prefixed name, producing the
kernel visible object name. -/
def utilGetHashedName (name : String) : String :=
  "azure-npm-" ++ toString (fnv1a32 name)

/-- GetPrefixName switches on the metadata type and prepends the
canonical category prefix to the name. The prefix string constants live
in the util package, outside this excerpt; they are modelled from the
spec as fixed distinct per category strings. The unknown and default
branches return the sentinel and emit an error log and metric, modelled
as the second component. -/
def IPSetMetadata.GetPrefixName (setMetadata : IPSetMetadata) : String × List String :=
  if setMetadata.type = CIDRBlocks then ("cidr-" ++ setMetadata.Name, [])
  else if setMetadata.type = Namespace then ("ns-" ++ setMetadata.Name, [])
  else if setMetadata.type = NamedPorts then ("namedport:" ++ setMetadata.Name, [])
  else if setMetadata.type = KeyLabelOfPod then ("podlabel-" ++ setMetadata.Name, [])
  else if setMetadata.type = KeyValueLabelOfPod then ("podlabel-" ++ setMetadata.Name, [])
  else if setMetadata.type = KeyLabelOfNamespace then ("nslabel-" ++ setMetadata.Name, [])
  else if setMetadata.type = KeyValueLabelOfNamespace then ("nslabel-" ++ setMetadata.Name, [])
  else if setMetadata.type = NestedLabelOfPod then ("nestedlabel-" ++ setMetadata.Name, [])
  else if setMetadata.type = EmptyHashSet then ("emptyhashset-" ++ setMetadata.Name, [])
  else if setMetadata.type = UnknownType then
    (Unknown, ["experienced unknown type in set metadata"])
  else
    (Unknown, ["experienced unexpected type in set metadata"])

/-- GetHashedName returns the sentinel whenever GetPrefixName does and
otherwise hashes the prefixed name. -/
def IPSetMetadata.GetHashedName (setMetadata : IPSetMetadata) : String × List String :=
  let pr := setMetadata.GetPrefixName
  if pr.1 = Unknown then (Unknown, pr.2) else (utilGetHashedName pr.1, pr.2)

/-- getSetKind maps a set type to its kind, mirroring the source switch
including the explicit UnknownType case and the default branch. -/
def getSetKind (setType : SetType) : SetKind :=
  if setType = CIDRBlocks then HashSet
  else if setType = Namespace then HashSet
  else if setType = NamedPorts then HashSet
  else if setType = KeyLabelOfPod then HashSet
  else if setType = KeyValueLabelOfPod then HashSet
  else if setType = EmptyHashSet then HashSet
  else if setType = KeyLabelOfNamespace then ListSet
  else if setType = KeyValueLabelOfNamespace then ListSet
  else if setType = NestedLabelOfPod then ListSet
  else if setType = UnknownType then UnknownKind
  else UnknownKind

/-- GetSetKind lifts getSetKind to metadata. -/
def IPSetMetadata.GetSetKind (setMetadata : IPSetMetadata) : SetKind :=
  getSetKind setMetadata.type

/-- declaredSetTypes lists the SetType constants the source declares. -/
def declaredSetTypes : List SetType :=
  [UnknownType, Namespace, KeyLabelOfNamespace, KeyValueLabelOfNamespace,
   KeyLabelOfPod, KeyValueLabelOfPod, NamedPorts, NestedLabelOfPod,
   CIDRBlocks, EmptyHashSet]

/-- recognizedSetType holds for the nine declared types that reach a
prefix branch of GetPrefixName (every declared type except UnknownType). -/
def recognizedSetType (setType : SetType) : Bool :=
  setType == CIDRBlocks || setType == Namespace || setType == NamedPorts ||
  setType == KeyLabelOfPod || setType == KeyValueLabelOfPod ||
  setType == KeyLabelOfNamespace || setType == KeyValueLabelOfNamespace ||
  setType == NestedLabelOfPod || setType == EmptyHashSet

/-- IPSet is the runtime record for one set entity. The SetProperties
embedding is flattened into the fields type and kind. IPPodKey maps a
member IP or IP:port to the owning pod key; MemberIPSets maps a child
hashed name key to the child reference, rendered as the child hashed
name, per the pointer identity convention above. SelectorReference and
NetPolReference are sets of policy names. -/
structure IPSet where
  Name : String
  unprefixedName : String
  HashedName : String
  type : SetType
  kind : SetKind
  IPPodKey : List (String × String)
  MemberIPSets : List (String × String)
  SelectorReference : List String
  NetPolReference : List String
  ipsetReferCount : Int
  kernelReferCount : Int
deriving DecidableEq

/-- NewIPSet builds a fresh entity from metadata: prefixed name, the
unconditional hash of the prefixed name, type and kind from the
taxonomy, empty membership storage and reference sets, and zero
counters. In Go one membership map is allocated and the other left nil
depending on the kind; both read as empty, so both are the empty list
here. The second component carries the diagnostics GetPrefixName
emitted. -/
def NewIPSet (setMetadata : IPSetMetadata) : IPSet × List String :=
  let pr := setMetadata.GetPrefixName
  ({ Name := pr.1
     unprefixedName := setMetadata.Name
     HashedName := utilGetHashedName pr.1
     type := setMetadata.type
     kind := setMetadata.GetSetKind
     IPPodKey := []
     MemberIPSets := []
     SelectorReference := []
     NetPolReference := []
     ipsetReferCount := 0
     kernelReferCount := 0 }, pr.2)

/-- GetSetContents returns the members of the set as a string slice: the
IPPodKey keys for a hash set, the member hashed names for a list set,
and the empty slice with ErrIPSetInvalidKind for any other kind. -/
def IPSet.GetSetContents (set : IPSet) : List String × Option String :=
  if set.kind == HashSet then (set.IPPodKey.map Prod.fst, none)
  else if set.kind == ListSet then (set.MemberIPSets.map Prod.snd, none)
  else ([], some ErrIPSetInvalidKind)

/-- incIPSetReferCount increments the list reference counter. -/
def IPSet.incIPSetReferCount (set : IPSet) : IPSet × List String :=
  ({ set with ipsetReferCount := set.ipsetReferCount + 1 }, [])

/-- decIPSetReferCount returns unchanged when the counter is zero and
otherwise decrements; the source emits no diagnostic on either path. -/
def IPSet.decIPSetReferCount (set : IPSet) : IPSet × List String :=
  if set.ipsetReferCount = 0 then (set, [])
  else ({ set with ipsetReferCount := set.ipsetReferCount - 1 }, [])

/-- incKernelReferCount increments the kernel reference counter. -/
def IPSet.incKernelReferCount (set : IPSet) : IPSet × List String :=
  ({ set with kernelReferCount := set.kernelReferCount + 1 }, [])

/-- decKernelReferCount returns unchanged when the counter is zero and
otherwise decrements; the source emits no diagnostic on either path. -/
def IPSet.decKernelReferCount (set : IPSet) : IPSet × List String :=
  if set.kernelReferCount = 0 then (set, [])
  else ({ set with kernelReferCount := set.kernelReferCount - 1 }, [])

/-- mapSetInsert models insertion into a Go map used as a set: inserting
a present key rewrites the same entry and leaves the map unchanged. -/
def mapSetInsert (l : List String) (name : String) : List String :=
  if name ∈ l then l else name :: l

/-- mapSetDelete models the Go delete builtin on a map used as a set:
the key is removed when present and nothing happens otherwise. -/
def mapSetDelete (l : List String) (name : String) : List String :=
  l.filter (fun x => x ≠ name)

/-- addReference adds the policy name to the reference set selected by
the reference type; an unknown reference type changes nothing and logs. -/
def IPSet.addReference (set : IPSet) (referenceName : String)
    (referenceType : ReferenceType) : IPSet × List String :=
  if referenceType = SelectorType then
    ({ set with SelectorReference := mapSetInsert set.SelectorReference referenceName }, [])
  else if referenceType = NetPolType then
    ({ set with NetPolReference := mapSetInsert set.NetPolReference referenceName }, [])
  else
    (set, ["IPSet_addReference: encountered unknown ReferenceType"])

/-- deleteReference removes the policy name from the reference set
selected by the reference type; an unknown reference type changes
nothing and logs. -/
def IPSet.deleteReference (set : IPSet) (referenceName : String)
    (referenceType : ReferenceType) : IPSet × List String :=
  if referenceType = SelectorType then
    ({ set with SelectorReference := mapSetDelete set.SelectorReference referenceName }, [])
  else if referenceType = NetPolType then
    ({ set with NetPolReference := mapSetDelete set.NetPolReference referenceName }, [])
  else
    (set, ["IPSet_deleteReference: encountered unknown ReferenceType"])

/-- usedByNetPol checks if an IPSet is referred in network policies. -/
def IPSet.usedByNetPol (set : IPSet) : Bool :=
  decide (0 < set.SelectorReference.length) || decide (0 < set.NetPolReference.length)

/-- referencedInList holds when the list reference counter is positive. -/
def IPSet.referencedInList (set : IPSet) : Bool :=
  decide (0 < set.ipsetReferCount)

/-- referencedInKernel holds when the kernel reference counter is
positive. -/
def IPSet.referencedInKernel (set : IPSet) : Bool :=
  decide (0 < set.kernelReferCount)

/-- shouldBeInKernel is the disjunction of usedByNetPol and
referencedInKernel. -/
def IPSet.shouldBeInKernel (set : IPSet) : Bool :=
  set.usedByNetPol || set.referencedInKernel

/-- canBeForceDeleted ignores contents entirely. -/
def IPSet.canBeForceDeleted (set : IPSet) : Bool :=
  !set.usedByNetPol && !set.referencedInList

/-- canBeDeleted takes some member of the member map (the Go range over
a map delivers an arbitrary entry; the first list entry here) and
accepts the member map when it is empty or a singleton whose member is
identical to the ignorable member, then requires no netpol use, no list
reference, and an empty leaf member map. -/
def IPSet.canBeDeleted (set : IPSet) (ignorableMember : Option String) : Bool :=
  let firstMember : Option String := set.MemberIPSets.head?.map Prod.snd
  let listMembersOk : Bool :=
    set.MemberIPSets.length == 0 ||
    (set.MemberIPSets.length == 1 && firstMember == ignorableMember)
  !set.usedByNetPol && !set.referencedInList &&
    set.IPPodKey.length == 0 && listMembersOk

/-- hasMember looks the member name up among the member map keys; a hash
set entity carries a nil member map whose lookups are all false. -/
def IPSet.hasMember (set : IPSet) (memberName : String) : Bool :=
  set.MemberIPSets.any (fun kv => kv.1 == memberName)

/-- canSetBeSelectorIPSet holds for the four selector eligible types. -/
def IPSet.canSetBeSelectorIPSet (set : IPSet) : Bool :=
  set.type == KeyLabelOfPod || set.type == KeyValueLabelOfPod ||
  set.type == Namespace || set.type == NestedLabelOfPod

/-- GetMembersOfTranslatedSets types every member name of a translated
set as KeyValueLabelOfPod, preserving count and order. -/
def GetMembersOfTranslatedSets (members : List String) : List IPSetMetadata :=
  members.map (fun setName => NewIPSetMetadata setName KeyValueLabelOfPod)

/-- specContentsEmpty renders the contents empty clause of the
specification for the deletability predicate: for a hash set, zero leaf
members; for a list set, zero members or exactly one member identical
to the ignorable member. -/
def specContentsEmpty (set : IPSet) (ignorableMember : Option String) : Bool :=
  if set.kind == HashSet then set.IPPodKey.length == 0
  else
    set.MemberIPSets.length == 0 ||
    (set.MemberIPSets.length == 1 &&
      set.MemberIPSets.head?.map Prod.snd == ignorableMember)

/-- specHasMember renders the membership test of the specification: it
succeeds only on a list set entity and fails with the invalid kind
error on every other kind. -/
def specHasMember (set : IPSet) (memberName : String) : Except String Bool :=
  if set.kind == ListSet then Except.ok (set.hasMember memberName)
  else Except.error ErrIPSetInvalidKind

/-- specDecListRefCount renders the list counter decrement of the
specification: a decrement below zero is a no-op that surfaces one
contract violation signal. -/
def specDecListRefCount (set : IPSet) : IPSet × List String :=
  if set.ipsetReferCount = 0 then
    (set, ["contract violation: DecListRefCount on a zero counter"])
  else
    ({ set with ipsetReferCount := set.ipsetReferCount - 1 }, [])

/-- Step relates an entity state to a successor under one engine
operation of this file. The setMembers constructor is modelled from the
spec: membership mutation lives outside this excerpt and touches only
the membership storage, never the counters or reference sets. -/
inductive Step : IPSet → IPSet → Prop where
  | addRef (s : IPSet) (n : String) (t : ReferenceType) : Step s (s.addReference n t).1
  | delRef (s : IPSet) (n : String) (t : ReferenceType) : Step s (s.deleteReference n t).1
  | incList (s : IPSet) : Step s s.incIPSetReferCount.1
  | decList (s : IPSet) : Step s s.decIPSetReferCount.1
  | incKernel (s : IPSet) : Step s s.incKernelReferCount.1
  | decKernel (s : IPSet) : Step s s.decKernelReferCount.1
  | setMembers (s : IPSet) (pods : List (String × String))
      (members : List (String × String)) :
      Step s { s with IPPodKey := pods, MemberIPSets := members }

/-- Reachable holds for every state reachable from a freshly constructed
entity through engine operations. -/
inductive Reachable : IPSet → Prop where
  | new (md : IPSetMetadata) : Reachable (NewIPSet md).1
  | step {s t : IPSet} : Reachable s → Step s t → Reachable t

/-- hashSetEntity is a concrete hash kind entity built by the
constructor from namespace metadata. -/
def hashSetEntity : IPSet := (NewIPSet (NewIPSetMetadata "ns1" Namespace)).1

/-- listEntityOneMember is a concrete list kind entity holding exactly
one member and no references. -/
def listEntityOneMember : IPSet :=
  { Name := "nslabel-l"
    unprefixedName := "l"
    HashedName := "hl"
    type := KeyLabelOfNamespace
    kind := ListSet
    IPPodKey := []
    MemberIPSets := [("hc", "hc")]
    SelectorReference := []
    NetPolReference := []
    ipsetReferCount := 0
    kernelReferCount := 0 }

/-- corruptKindEntity is a concrete entity whose kind was corrupted to
an unsupported value, as the test only injection of the spec scenario. -/
def corruptKindEntity : IPSet :=
  { Name := "ns-c"
    unprefixedName := "c"
    HashedName := "hc"
    type := Namespace
    kind := "corrupted"
    IPPodKey := []
    MemberIPSets := []
    SelectorReference := []
    NetPolReference := []
    ipsetReferCount := 0
    kernelReferCount := 0 }

/-- zeroCountEntity is a concrete entity whose counters are both zero. -/
def zeroCountEntity : IPSet :=
  { Name := "ns-z"
    unprefixedName := "z"
    HashedName := "hz"
    type := Namespace
    kind := HashSet
    IPPodKey := []
    MemberIPSets := []
    SelectorReference := []
    NetPolReference := []
    ipsetReferCount := 0
    kernelReferCount := 0 }

/-- refNames projects the reference set a reference type selects. -/
def refNames (set : IPSet) (t : ReferenceType) : List String :=
  if t = SelectorType then set.SelectorReference else set.NetPolReference

/-- string_data_append unfolds the character data of an appended string. -/
lemma string_data_append (s t : String) : (s ++ t).data = s.data ++ t.data := by
  cases s; cases t; rfl

/-- append_ne_unknown: a string starting with a character other than u
never equals the unknown sentinel, whatever follows the first
character. -/
lemma append_ne_unknown (p x : String) (c : Char) (cs : List Char)
    (hp : p.data = c :: cs) (hc : c ≠ 'u') : p ++ x ≠ Unknown := by
  intro h
  have hd := congrArg String.data h
  rw [string_data_append, hp] at hd
  have hu : (Unknown : String).data = ['u', 'n', 'k', 'n', 'o', 'w', 'n'] := rfl
  rw [hu] at hd
  simp at hd
  exact hc hd.1

/-- utilGetHashedName_ne_unknown: hashed names carry the azure-npm-
prefix and therefore never collide with the unknown sentinel. -/
lemma utilGetHashedName_ne_unknown (s : String) : utilGetHashedName s ≠ Unknown :=
  append_ne_unknown "azure-npm-" _ 'a' _ rfl (by decide)

/-- recognized_prefix_ne_unknown: a recognized set type reaches a prefix
branch of GetPrefixName and the produced prefixed name is never the
unknown sentinel. -/
lemma recognized_prefix_ne_unknown (md : IPSetMetadata)
    (h : recognizedSetType md.type = true) : md.GetPrefixName.1 ≠ Unknown := by
  have h9 : md.type = CIDRBlocks ∨ md.type = Namespace ∨ md.type = NamedPorts ∨
      md.type = KeyLabelOfPod ∨ md.type = KeyValueLabelOfPod ∨
      md.type = KeyLabelOfNamespace ∨ md.type = KeyValueLabelOfNamespace ∨
      md.type = NestedLabelOfPod ∨ md.type = EmptyHashSet := by
    simpa [recognizedSetType, or_assoc] using h
  rcases h9 with h1 | h1 | h1 | h1 | h1 | h1 | h1 | h1 | h1
  · rw [show md.GetPrefixName = ("cidr-" ++ md.Name, []) from by
      simp [IPSetMetadata.GetPrefixName, h1, UnknownType, Namespace,
        KeyLabelOfNamespace, KeyValueLabelOfNamespace, KeyLabelOfPod,
        KeyValueLabelOfPod, NamedPorts, NestedLabelOfPod, CIDRBlocks, EmptyHashSet]]
    exact append_ne_unknown _ _ 'c' _ rfl (by decide)
  · rw [show md.GetPrefixName = ("ns-" ++ md.Name, []) from by
      simp [IPSetMetadata.GetPrefixName, h1, UnknownType, Namespace,
        KeyLabelOfNamespace, KeyValueLabelOfNamespace, KeyLabelOfPod,
        KeyValueLabelOfPod, NamedPorts, NestedLabelOfPod, CIDRBlocks, EmptyHashSet]]
    exact append_ne_unknown _ _ 'n' _ rfl (by decide)
  · rw [show md.GetPrefixName = ("namedport:" ++ md.Name, []) from by
      simp [IPSetMetadata.GetPrefixName, h1, UnknownType, Namespace,
        KeyLabelOfNamespace, KeyValueLabelOfNamespace, KeyLabelOfPod,
        KeyValueLabelOfPod, NamedPorts, NestedLabelOfPod, CIDRBlocks, EmptyHashSet]]
    exact append_ne_unknown _ _ 'n' _ rfl (by decide)
  · rw [show md.GetPrefixName = ("podlabel-" ++ md.Name, []) from by
      simp [IPSetMetadata.GetPrefixName, h1, UnknownType, Namespace,
        KeyLabelOfNamespace, KeyValueLabelOfNamespace, KeyLabelOfPod,
        KeyValueLabelOfPod, NamedPorts, NestedLabelOfPod, CIDRBlocks, EmptyHashSet]]
    exact append_ne_unknown _ _ 'p' _ rfl (by decide)
  · rw [show md.GetPrefixName = ("podlabel-" ++ md.Name, []) from by
      simp [IPSetMetadata.GetPrefixName, h1, UnknownType, Namespace,
        KeyLabelOfNamespace, KeyValueLabelOfNamespace, KeyLabelOfPod,
        KeyValueLabelOfPod, NamedPorts, NestedLabelOfPod, CIDRBlocks, EmptyHashSet]]
    exact append_ne_unknown _ _ 'p' _ rfl (by decide)
  · rw [show md.GetPrefixName = ("nslabel-" ++ md.Name, []) from by
      simp [IPSetMetadata.GetPrefixName, h1, UnknownType, Namespace,
        KeyLabelOfNamespace, KeyValueLabelOfNamespace, KeyLabelOfPod,
        KeyValueLabelOfPod, NamedPorts, NestedLabelOfPod, CIDRBlocks, EmptyHashSet]]
    exact append_ne_unknown _ _ 'n' _ rfl (by decide)
  · rw [show md.GetPrefixName = ("nslabel-" ++ md.Name, []) from by
      simp [IPSetMetadata.GetPrefixName, h1, UnknownType, Namespace,
        KeyLabelOfNamespace, KeyValueLabelOfNamespace, KeyLabelOfPod,
        KeyValueLabelOfPod, NamedPorts, NestedLabelOfPod, CIDRBlocks, EmptyHashSet]]
    exact append_ne_unknown _ _ 'n' _ rfl (by decide)
  · rw [show md.GetPrefixName = ("nestedlabel-" ++ md.Name, []) from by
      simp [IPSetMetadata.GetPrefixName, h1, UnknownType, Namespace,
        KeyLabelOfNamespace, KeyValueLabelOfNamespace, KeyLabelOfPod,
        KeyValueLabelOfPod, NamedPorts, NestedLabelOfPod, CIDRBlocks, EmptyHashSet]]
    exact append_ne_unknown _ _ 'n' _ rfl (by decide)
  · rw [show md.GetPrefixName = ("emptyhashset-" ++ md.Name, []) from by
      simp [IPSetMetadata.GetPrefixName, h1, UnknownType, Namespace,
        KeyLabelOfNamespace, KeyValueLabelOfNamespace, KeyLabelOfPod,
        KeyValueLabelOfPod, NamedPorts, NestedLabelOfPod, CIDRBlocks, EmptyHashSet]]
    exact append_ne_unknown _ _ 'e' _ rfl (by decide)

/-- unrecognized_prefix_unknown: an unrecognized set type falls to the
sentinel branches of GetPrefixName. -/
lemma unrecognized_prefix_unknown (md : IPSetMetadata)
    (h : recognizedSetType md.type = false) : md.GetPrefixName.1 = Unknown := by
  simp only [recognizedSetType, Bool.or_eq_false_iff, beq_eq_false_iff_ne, ne_eq] at h
  obtain ⟨⟨⟨⟨⟨⟨⟨⟨h1, h2⟩, h3⟩, h4⟩, h5⟩, h6⟩, h7⟩, h8⟩, h9⟩ := h
  rw [IPSetMetadata.GetPrefixName]
  simp only [h1, h2, h3, h4, h5, h6, h7, h8, h9, if_false]
  split
  · rfl
  · rfl

/-- C2: ShouldBeInKernel is exactly UsedByNetPol or ReferencedInKernel,
which unfolds to: the selector reference set is non empty, or the
netpol reference set is non empty, or the kernel reference count is
positive. -/
theorem shouldBeInKernel_characterization (set : IPSet) :
    set.shouldBeInKernel = (set.usedByNetPol || set.referencedInKernel)
    ∧ (set.shouldBeInKernel = true ↔
        (set.SelectorReference ≠ [] ∨ set.NetPolReference ≠ [] ∨
          0 < set.kernelReferCount)) := by
  refine ⟨rfl, ?_⟩
  simp [IPSet.shouldBeInKernel, IPSet.usedByNetPol, IPSet.referencedInKernel,
    List.length_pos, or_assoc]

/-- C7: CanBeForceDeleted is exactly the conjunction of not UsedByNetPol
and not ReferencedInList, and replacing the membership contents by
anything leaves it unchanged. -/
theorem canBeForceDeleted_ignores_contents (set : IPSet)
    (pods : List (String × String)) (members : List (String × String)) :
    set.canBeForceDeleted = (!set.usedByNetPol && !set.referencedInList)
    ∧ IPSet.canBeForceDeleted
        { set with IPPodKey := pods, MemberIPSets := members } = set.canBeForceDeleted
    ∧ (set.canBeForceDeleted = true ↔
        (set.usedByNetPol = false ∧ set.referencedInList = false)) := by
  refine ⟨rfl, rfl, ?_⟩
  simp [IPSet.canBeForceDeleted]

/-- C6: GetSetContents returns the leaf member identities for a hash
set, the member hashed names for a list set, one entry per member, and
the invalid kind error for every other kind. -/
theorem getSetContents_characterization (set : IPSet) :
    (set.kind = HashSet →
      set.GetSetContents = (set.IPPodKey.map Prod.fst, none)
      ∧ set.GetSetContents.1.length = set.IPPodKey.length)
    ∧ (set.kind = ListSet →
      set.GetSetContents = (set.MemberIPSets.map Prod.snd, none)
      ∧ set.GetSetContents.1.length = set.MemberIPSets.length)
    ∧ (set.kind ≠ HashSet → set.kind ≠ ListSet →
      set.GetSetContents = ([], some ErrIPSetInvalidKind)) := by
  refine ⟨fun h => ?_, fun h => ?_, fun h1 h2 => ?_⟩
  · simp [IPSet.GetSetContents, h]
  · simp [IPSet.GetSetContents, h, ListSet, HashSet]
  · simp [IPSet.GetSetContents, h1, h2]

/-- C6 witness: an entity whose kind was corrupted to an unsupported
value yields the invalid kind error and no contents. -/
theorem getSetContents_characterization_witness :
    corruptKindEntity.GetSetContents = ([], some ErrIPSetInvalidKind) :=
  (getSetContents_characterization corruptKindEntity).2.2 (by decide) (by decide)

/-- C9: the translated member adapter preserves length and order and
types every member as KeyValueLabelOfPod with the original name. -/
theorem membersOfTranslatedSets_pointwise (members : List String) (i : Nat)
    (h : i < members.length) :
    (GetMembersOfTranslatedSets members).length = members.length
    ∧ ∀ (hg : i < (GetMembersOfTranslatedSets members).length),
        ((GetMembersOfTranslatedSets members).get ⟨i, hg⟩).Name = members.get ⟨i, h⟩
        ∧ ((GetMembersOfTranslatedSets members).get ⟨i, hg⟩).type
            = KeyValueLabelOfPod := by
  refine ⟨by simp [GetMembersOfTranslatedSets], fun hg => ?_⟩
  simp [GetMembersOfTranslatedSets, NewIPSetMetadata]

/-- C9 witness at a concrete two element member list. -/
theorem membersOfTranslatedSets_pointwise_witness :
    (GetMembersOfTranslatedSets ["a", "b"]).length = (["a", "b"] : List String).length
    ∧ ∀ (hg : 0 < (GetMembersOfTranslatedSets ["a", "b"]).length),
        ((GetMembersOfTranslatedSets ["a", "b"]).get ⟨0, hg⟩).Name
            = (["a", "b"] : List String).get ⟨0, by decide⟩
        ∧ ((GetMembersOfTranslatedSets ["a", "b"]).get ⟨0, hg⟩).type
            = KeyValueLabelOfPod :=
  membersOfTranslatedSets_pointwise ["a", "b"] 0 (by decide)

/-- C4 counterexample: the set type value 10 is not UnknownType yet maps
to UnknownKind through the default branch, so UnknownType is not the
only set type value mapping to UnknownKind. -/
theorem getSetKind_undeclared_counterexample :
    getSetKind 10 = UnknownKind ∧ (10 : SetType) ≠ UnknownType := by decide

/-- C4 amended: the kind mapping is total and lands in the three kinds,
which are pairwise distinct, and it yields UnknownKind exactly for
UnknownType and for every undeclared set type value. -/
theorem getSetKind_total_characterization (t : SetType) :
    (getSetKind t = HashSet ∨ getSetKind t = ListSet ∨ getSetKind t = UnknownKind)
    ∧ (HashSet ≠ ListSet ∧ HashSet ≠ UnknownKind ∧ ListSet ≠ UnknownKind)
    ∧ (getSetKind t = UnknownKind ↔ (t = UnknownType ∨ t ∉ declaredSetTypes)) := by
  by_cases hd : t ∈ declaredSetTypes
  · simp only [declaredSetTypes, List.mem_cons, List.not_mem_nil, or_false] at hd
    rcases hd with h | h | h | h | h | h | h | h | h | h <;> subst h <;> decide
  · simp only [declaredSetTypes, List.mem_cons, List.not_mem_nil, or_false,
      not_or] at hd
    obtain ⟨hU, hN, hKLN, hKVLN, hKLP, hKVLP, hNP, hNLP, hC, hE⟩ := hd
    have hk : getSetKind t = UnknownKind := by
      rw [getSetKind]
      simp only [hU, hN, hKLN, hKVLN, hKLP, hKVLP, hNP, hNLP, hC, hE, if_false]
    refine ⟨Or.inr (Or.inr hk), by decide, ?_⟩
    rw [hk]
    simp [declaredSetTypes, hU, hN, hKLN, hKVLN, hKLP, hKVLP, hNP, hNLP, hC, hE]

/-- C5 counterexample: a hash kind entity built by the constructor; the
claim following membership test fails with the invalid kind error, yet
the source membership test returns the boolean false. -/
theorem hasMember_hashset_counterexample :
    hashSetEntity.kind = HashSet
    ∧ specHasMember hashSetEntity "m" = Except.error ErrIPSetInvalidKind
    ∧ hashSetEntity.hasMember "m" = false :=
  ⟨rfl, rfl, rfl⟩

/-- C5 amended: on every hash kind entity built by the constructor,
hasMember returns false for every member name, with no error and no
undefined behavior: the nil member map reads as empty. -/
theorem hasMember_on_hashset_false (md : IPSetMetadata) (m : String)
    (h : getSetKind md.type = HashSet) :
    (NewIPSet md).1.hasMember m = false := rfl

/-- C5 witness at a concrete namespace typed entity. -/
theorem hasMember_on_hashset_false_witness :
    (NewIPSet (NewIPSetMetadata "x" Namespace)).1.hasMember "m" = false :=
  hasMember_on_hashset_false (NewIPSetMetadata "x" Namespace) "m" (by decide)

/-- C1: under the kind consistent storage invariant, canBeDeleted is
exactly not UsedByNetPol, not ReferencedInList, and the contents empty
clause of the specification. -/
theorem canBeDeleted_iff_spec (set : IPSet) (ignorableMember : Option String)
    (h : (set.kind = HashSet ∧ set.MemberIPSets = [])
       ∨ (set.kind = ListSet ∧ set.IPPodKey = [])) :
    set.canBeDeleted ignorableMember =
      (!set.usedByNetPol && !set.referencedInList &&
        specContentsEmpty set ignorableMember) := by
  rcases h with ⟨hk, hm⟩ | ⟨hk, hm⟩
  · simp [IPSet.canBeDeleted, specContentsEmpty, hk, hm]
  · simp [IPSet.canBeDeleted, specContentsEmpty, hk, hm, ListSet, HashSet]

/-- C1 witness: a concrete one member list entity, with the scenario
facts that it is deletable exactly when its single member is the
ignorable one. -/
theorem canBeDeleted_iff_spec_witness :
    listEntityOneMember.canBeDeleted (some "hc") =
      (!listEntityOneMember.usedByNetPol && !listEntityOneMember.referencedInList &&
        specContentsEmpty listEntityOneMember (some "hc"))
    ∧ listEntityOneMember.canBeDeleted (some "hc") = true
    ∧ listEntityOneMember.canBeDeleted none = false :=
  ⟨canBeDeleted_iff_spec listEntityOneMember (some "hc") (Or.inr ⟨rfl, rfl⟩),
   by decide, by decide⟩

/-- mapSetInsert_mem: inserting a present name changes nothing. -/
lemma mapSetInsert_mem (l : List String) (n : String) (h : n ∈ l) :
    mapSetInsert l n = l := by
  simp [mapSetInsert, h]

/-- mapSetInsert_idem: inserting twice equals inserting once. -/
lemma mapSetInsert_idem (l : List String) (n : String) :
    mapSetInsert (mapSetInsert l n) n = mapSetInsert l n := by
  by_cases h : n ∈ l
  · simp [mapSetInsert, h]
  · simp [mapSetInsert, h]

/-- mapSetDelete_not_mem: deleting an absent name changes nothing. -/
lemma mapSetDelete_not_mem (l : List String) (n : String) (h : n ∉ l) :
    mapSetDelete l n = l := by
  simp only [mapSetDelete, List.filter_eq_self, decide_eq_true_eq, ne_eq]
  intro a ha he
  exact h (he ▸ ha)

/-- mapSetDelete_idem: deleting twice equals deleting once. -/
lemma mapSetDelete_idem (l : List String) (n : String) :
    mapSetDelete (mapSetDelete l n) n = mapSetDelete l n := by
  apply mapSetDelete_not_mem
  simp [mapSetDelete]

/-- C8: for the selector and netpol reference types, adding twice equals
adding once, deleting twice equals deleting once, adding a present name
leaves the entity unchanged and deleting an absent name leaves the
entity unchanged. -/
theorem reference_add_delete_idempotent (set : IPSet) (n : String)
    (t : ReferenceType) (h : t = SelectorType ∨ t = NetPolType) :
    ((set.addReference n t).1.addReference n t).1 = (set.addReference n t).1
    ∧ ((set.deleteReference n t).1.deleteReference n t).1
        = (set.deleteReference n t).1
    ∧ (n ∈ refNames set t → (set.addReference n t).1 = set)
    ∧ (n ∉ refNames set t → (set.deleteReference n t).1 = set) := by
  rcases h with rfl | rfl
  · refine ⟨?_, ?_, fun hm => ?_, fun hm => ?_⟩
    · simp [IPSet.addReference, mapSetInsert_idem]
    · simp [IPSet.deleteReference, mapSetDelete_idem]
    · have hm2 : n ∈ set.SelectorReference := by simpa [refNames] using hm
      simp [IPSet.addReference, mapSetInsert_mem _ _ hm2]
    · have hm2 : n ∉ set.SelectorReference := by simpa [refNames] using hm
      simp [IPSet.deleteReference, mapSetDelete_not_mem _ _ hm2]
  · refine ⟨?_, ?_, fun hm => ?_, fun hm => ?_⟩
    · simp [IPSet.addReference, SelectorType, NetPolType, mapSetInsert_idem]
    · simp [IPSet.deleteReference, SelectorType, NetPolType, mapSetDelete_idem]
    · have hm2 : n ∈ set.NetPolReference := by
        simpa [refNames, SelectorType, NetPolType] using hm
      simp [IPSet.addReference, SelectorType, NetPolType, mapSetInsert_mem _ _ hm2]
    · have hm2 : n ∉ set.NetPolReference := by
        simpa [refNames, SelectorType, NetPolType] using hm
      simp [IPSet.deleteReference, SelectorType, NetPolType,
        mapSetDelete_not_mem _ _ hm2]

/-- C8 witness at a concrete entity and the selector reference type. -/
theorem reference_add_delete_idempotent_witness :
    ((zeroCountEntity.addReference "p" SelectorType).1.addReference
        "p" SelectorType).1 = (zeroCountEntity.addReference "p" SelectorType).1
    ∧ ((zeroCountEntity.deleteReference "p" SelectorType).1.deleteReference
        "p" SelectorType).1 = (zeroCountEntity.deleteReference "p" SelectorType).1
    ∧ ("p" ∈ refNames zeroCountEntity SelectorType →
        (zeroCountEntity.addReference "p" SelectorType).1 = zeroCountEntity)
    ∧ ("p" ∉ refNames zeroCountEntity SelectorType →
        (zeroCountEntity.deleteReference "p" SelectorType).1 = zeroCountEntity) :=
  reference_add_delete_idempotent zeroCountEntity "p" SelectorType (Or.inl rfl)

/-- step_counters: every engine step preserves non negativity of both
reference counters. -/
lemma step_counters {s t : IPSet} (hs : Step s t) :
    (0 ≤ s.ipsetReferCount → 0 ≤ t.ipsetReferCount)
    ∧ (0 ≤ s.kernelReferCount → 0 ≤ t.kernelReferCount) := by
  cases hs with
  | addRef n rt =>
      constructor <;> intro h0 <;>
        · unfold IPSet.addReference
          split_ifs <;> exact h0
  | delRef n rt =>
      constructor <;> intro h0 <;>
        · unfold IPSet.deleteReference
          split_ifs <;> exact h0
  | incList =>
      constructor <;> intro h0
      · simp only [IPSet.incIPSetReferCount]
        omega
      · exact h0
  | decList =>
      constructor <;> intro h0
      · unfold IPSet.decIPSetReferCount
        split_ifs with hz
        · exact h0
        · simp only []
          omega
      · unfold IPSet.decIPSetReferCount
        split_ifs <;> exact h0
  | incKernel =>
      constructor <;> intro h0
      · exact h0
      · simp only [IPSet.incKernelReferCount]
        omega
  | decKernel =>
      constructor <;> intro h0
      · unfold IPSet.decKernelReferCount
        split_ifs <;> exact h0
      · unfold IPSet.decKernelReferCount
        split_ifs with hz
        · exact h0
        · simp only []
          omega
  | setMembers pods members =>
      exact ⟨id, id⟩

/-- reachable_counters_nonneg: both counters are non negative in every
reachable state. -/
lemma reachable_counters_nonneg {s : IPSet} (h : Reachable s) :
    0 ≤ s.ipsetReferCount ∧ 0 ≤ s.kernelReferCount := by
  induction h with
  | new md => exact ⟨le_refl 0, le_refl 0⟩
  | step hr hs ih => exact ⟨(step_counters hs).1 ih.1, (step_counters hs).2 ih.2⟩

/-- C3 amended: in every reachable state both counters are non
negative, and decrementing a zero counter leaves the entity unchanged
and emits no diagnostic at all, silently. -/
theorem referCounts_nonneg_and_dec_noop (s : IPSet) (h : Reachable s) :
    0 ≤ s.ipsetReferCount ∧ 0 ≤ s.kernelReferCount
    ∧ (s.ipsetReferCount = 0 → s.decIPSetReferCount = (s, []))
    ∧ (s.kernelReferCount = 0 → s.decKernelReferCount = (s, [])) := by
  obtain ⟨h1, h2⟩ := reachable_counters_nonneg h
  refine ⟨h1, h2, fun h0 => ?_, fun h0 => ?_⟩
  · simp [IPSet.decIPSetReferCount, h0]
  · simp [IPSet.decKernelReferCount, h0]

/-- C3 witness: a freshly constructed entity is reachable and satisfies
the amended statement. -/
theorem referCounts_nonneg_and_dec_noop_witness :
    0 ≤ (NewIPSet (NewIPSetMetadata "w" Namespace)).1.ipsetReferCount
    ∧ 0 ≤ (NewIPSet (NewIPSetMetadata "w" Namespace)).1.kernelReferCount
    ∧ ((NewIPSet (NewIPSetMetadata "w" Namespace)).1.ipsetReferCount = 0 →
        (NewIPSet (NewIPSetMetadata "w" Namespace)).1.decIPSetReferCount
          = ((NewIPSet (NewIPSetMetadata "w" Namespace)).1, []))
    ∧ ((NewIPSet (NewIPSetMetadata "w" Namespace)).1.kernelReferCount = 0 →
        (NewIPSet (NewIPSetMetadata "w" Namespace)).1.decKernelReferCount
          = ((NewIPSet (NewIPSetMetadata "w" Namespace)).1, [])) :=
  referCounts_nonneg_and_dec_noop (NewIPSet (NewIPSetMetadata "w" Namespace)).1
    (Reachable.new (NewIPSetMetadata "w" Namespace))

/-- C3 counterexample: decrementing the zero list counter twice keeps it
at zero but the source emits no contract violation signal on either
call, while the specification rendering of the operation emits one. -/
theorem decListRefCount_zero_emits_no_signal :
    zeroCountEntity.ipsetReferCount = 0
    ∧ zeroCountEntity.decIPSetReferCount = (zeroCountEntity, [])
    ∧ zeroCountEntity.decIPSetReferCount.1.decIPSetReferCount
        = (zeroCountEntity, [])
    ∧ (specDecListRefCount zeroCountEntity).2.length = 1 :=
  ⟨rfl, rfl, rfl, rfl⟩

/-- C10: for a recognized set type the constructed entity hashed name
agrees with the metadata hashed name; for UnknownType and every
unrecognized value the metadata hashed name is the unknown sentinel
while the entity hashed name is the hash of the sentinel, and the two
differ. -/
theorem newIPSet_hashedName_vs_metadata (md : IPSetMetadata) :
    (recognizedSetType md.type = true →
      (NewIPSet md).1.HashedName = md.GetHashedName.1)
    ∧ (recognizedSetType md.type = false →
      md.GetHashedName.1 = Unknown
      ∧ (NewIPSet md).1.HashedName = utilGetHashedName Unknown
      ∧ (NewIPSet md).1.HashedName ≠ md.GetHashedName.1) := by
  have hnew : (NewIPSet md).1.HashedName = utilGetHashedName md.GetPrefixName.1 := rfl
  constructor
  · intro h
    have hpne := recognized_prefix_ne_unknown md h
    rw [hnew, IPSetMetadata.GetHashedName]
    simp [hpne]
  · intro h
    have hpu := unrecognized_prefix_unknown md h
    refine ⟨?_, ?_, ?_⟩
    · rw [IPSetMetadata.GetHashedName]
      simp [hpu]
    · rw [hnew, hpu]
    · rw [hnew, hpu, IPSetMetadata.GetHashedName]
      simp [hpu]
      exact utilGetHashedName_ne_unknown Unknown

/-- C10 witness at a recognized namespace typed metadata and at an
UnknownType metadata. -/
theorem newIPSet_hashedName_vs_metadata_witness :
    (NewIPSet (NewIPSetMetadata "a" Namespace)).1.HashedName
        = (NewIPSetMetadata "a" Namespace).GetHashedName.1
    ∧ (NewIPSetMetadata "u1" UnknownType).GetHashedName.1 = Unknown :=
  ⟨(newIPSet_hashedName_vs_metadata (NewIPSetMetadata "a" Namespace)).1 (by decide),
   ((newIPSet_hashedName_vs_metadata (NewIPSetMetadata "u1" UnknownType)).2
      (by decide)).1⟩
